import Mathlib

/-!
Verification of the data-downloader core of vscode-go-to-mdn.

The repository sources available here are the DataDownloader test suite and
the `Config` interface; the implementation files (`dataDownloader.ts`,
`interfaces/item.ts`, `enums/itemType.ts`, `appConfig.ts`) are not present.
Those missing pieces are modelled below from the words of the specification, with
the concrete expected values of the test suite as the authority on behaviour.
-/

/-- Modelled from the spec: the `ItemType` enumeration of
`src/enums/itemType.ts` (file missing from the sources; only its use in the
test suite is visible). Values: `Directory`, `File`. -/
inductive ItemType where
  | Directory
  | File
  deriving DecidableEq, Repr

/-- Modelled from the spec: the `Item` record of `src/interfaces/item.ts`
(file missing from the sources). A node of the presented hierarchy: display
name, resource url, type, optional back-references `parent` and
`rootParent`, and the breadcrumb trail. Recursive because the
back-references hold whole `Item` values. -/
inductive Item where
  | mk (name : String) (url : String) (type : ItemType)
       (parent : Option Item) (rootParent : Option Item)
       (breadcrumbs : List String)

def Item.name : Item → String
  | .mk n _ _ _ _ _ => n

def Item.url : Item → String
  | .mk _ u _ _ _ _ => u

def Item.type : Item → ItemType
  | .mk _ _ t _ _ _ => t

def Item.parent : Item → Option Item
  | .mk _ _ _ p _ _ => p

def Item.rootParent : Item → Option Item
  | .mk _ _ _ _ r _ => r

def Item.breadcrumbs : Item → List String
  | .mk _ _ _ _ _ b => b

/-- The `Config` interface of `src/interfaces/config.ts`, extended with the
flat-index endpoint: the Config surface of the spec lists an `allFilesUrl`
equivalent endpoint (its `appConfig.ts` carrier is missing from the
sources), and the url normalizer is modelled as a string function. -/
structure Config where
  regex : String
  searchUrl : String
  rootUrl : String
  allFilesUrl : String
  urlNormalizer : String → String
  accessProperty : String
  higherLevelLabel : String
  cacheKey : String

/-- Modelled from the spec: one entry of a GitHub-style directory listing
body, carrying the raw file/segment name and the content url used to fetch
the children of the entry itself (`dataDownloader.ts` is missing from the
sources). -/
structure DirEntry where
  name : String
  url : String

/-- Modelled from the spec: the part of a compatibility-data document that
the downloader consumes — the raw name of the leaf entry reached (the last
nested path segment) and the embedded specification/documentation link
(`dataDownloader.ts` is missing from the sources). -/
structure CompatDoc where
  entryName : String
  docLink : String

/-- Modelled from the spec: the decoded JSON body of a tree fetch, which is
either a directory listing or a compatibility-data document; the downloader
classifies the payload by this shape. -/
inductive TreeBody where
  | listing (entries : List DirEntry)
  | compat (doc : CompatDoc)

/-- Modelled from the spec: one raw item of the flat-index document
`{ items: RawItem[] }`, including the transport-only identifier and
timestamp fields and the raw numeric type code. -/
structure RawItem where
  id : Nat
  name : String
  url : String
  parent : Option Item
  rootParent : Option Item
  type : Nat
  breadcrumbs : List String
  timestamp : String

/-- Modelled from the spec: the flat-index response body. -/
structure FlatBody where
  items : List RawItem

/-- Modelled from the spec: outcome of the underlying HTTP GET — either a
status with a decoded body, or a transport-level failure with the original error message of the client. -/
inductive FetchResult (α : Type) where
  | success (status : Nat) (body : α)
  | failure (msg : String)

/-- Modelled from the spec: an HTTP request as the downloader builds it — a
target url and the exact header list sent. -/
structure Request where
  url : String
  headers : List (String × String)

/-- Modelled from the spec: the `Authorization` header value — the empty
string when no personal token is configured, `"token "` followed by the
token value otherwise; the header is never omitted. -/
def authHeaderValue : Option String → String
  | none => ""
  | some t => "token " ++ t

/-- Modelled from the spec: the exact headers sent with every request:
`Content-type: application/json` and `Authorization`. -/
def fetchHeaders (token : Option String) : List (String × String) :=
  [("Content-type", "application/json"), ("Authorization", authHeaderValue token)]

/-- Modelled from the spec: the standard reason phrase of an HTTP status
code, used as the caller-visible error message for non-200 responses. -/
def reasonPhrase : Nat → String
  | 200 => "OK"
  | 201 => "Created"
  | 204 => "No Content"
  | 301 => "Moved Permanently"
  | 304 => "Not Modified"
  | 400 => "Bad Request"
  | 401 => "Unauthorized"
  | 403 => "Forbidden"
  | 404 => "Not Found"
  | 429 => "Too Many Requests"
  | 500 => "Internal Server Error"
  | 502 => "Bad Gateway"
  | 503 => "Service Unavailable"
  | _ => "Unknown Status"

/-- Modelled from the spec: the camel-case/compound word split used to turn
a raw segment name into a human-readable label: a space is inserted between
a lowercase letter and a following uppercase letter, and between two
uppercase letters when the second starts an uppercase-lowercase word
(so `AbortController` becomes `Abort Controller` and `HTMLUListElement`
becomes `HTMLU List Element`). -/
def camelSplitChars : List Char → List Char
  | [] => []
  | a :: rest =>
    match rest with
    | [] => [a]
    | b :: rest2 =>
      let tail := camelSplitChars rest
      if a.isLower && b.isUpper then a :: ' ' :: tail
      else if a.isUpper && b.isUpper &&
          (match rest2 with | c :: _ => c.isLower | [] => false) then
        a :: ' ' :: tail
      else a :: tail

/-- Modelled from the spec: drop a trailing `.json` file extension from a
raw entry name, if present. -/
def stripJsonSuffix (s : String) : String :=
  let r := s.data.reverse
  if r.take 5 = ['n', 'o', 's', 'j', '.'] then String.mk ((r.drop 5).reverse)
  else s

/-- Modelled from the spec: the human-readable label derived from an
raw file/segment name of an entry — the `.json` extension is stripped and
camel-case/compound names are split into words, so `AbortController.json`
yields `Abort Controller`. -/
def derivedLabel (s : String) : String :=
  String.mk (camelSplitChars (stripJsonSuffix s).data)

/-- Modelled from the spec: root-fetch transformation of one directory
entry (`downloadTreeData` without a parent): a `Directory` item with
`breadcrumbs = [entry.name]` and no `parent`/`rootParent`. -/
def rootItem (e : DirEntry) : Item :=
  .mk e.name e.url ItemType.Directory none none [e.name]

/-- Modelled from the spec: directory-descent transformation of one entry
under parent `p`: a `Directory` item with `parent = p`,
`rootParent = p.rootParent ?? p`, and breadcrumbs extended by the derived
label of the raw name of the entry. -/
def descentItem (p : Item) (e : DirEntry) : Item :=
  .mk (derivedLabel e.name) e.url ItemType.Directory (some p)
    (some (p.rootParent.getD p))
    (p.breadcrumbs ++ [derivedLabel e.name])

/-- Modelled from the spec: the documentation-reference `File` item of a
compat-data leaf: url is the embedded documentation link normalized via the
configured url normalizer, name is the derived entry label followed by
`" - reference"`, and the derived entry label appears twice at the end of
the breadcrumbs. -/
def refItem (cfg : Config) (p : Item) (doc : CompatDoc) : Item :=
  .mk (derivedLabel doc.entryName ++ " - reference")
    (cfg.urlNormalizer doc.docLink) ItemType.File (some p) none
    (p.breadcrumbs ++ [derivedLabel doc.entryName, derivedLabel doc.entryName])

/-- Modelled from the spec: the synthetic `wildcard` `File` item of a
compat-data leaf: empty url, name `"wildcard"`, breadcrumbs extended by the
derived entry label and then `"wildcard"`. -/
def wildcardItem (p : Item) (doc : CompatDoc) : Item :=
  .mk "wildcard" "" ItemType.File (some p) none
    (p.breadcrumbs ++ [derivedLabel doc.entryName, "wildcard"])

/-- Modelled from the spec: the two `File` items produced for each
compat-data leaf, reference item first, wildcard second. -/
def leafItems (cfg : Config) (p : Item) (doc : CompatDoc) : List Item :=
  [refItem cfg p doc, wildcardItem p doc]

/-- Modelled from the spec: payload classification and transformation of
`downloadTreeData` — root fetch when no parent is given, directory descent
for a listing under a parent, leaf transformation for a compat-data
document under a parent. A compat-data body without a parent is outside the
three specified modes and yields no items. -/
def transformTreeData (cfg : Config) (parent : Option Item) :
    TreeBody → List Item
  | .listing es =>
    match parent with
    | none => es.map rootItem
    | some p => es.map (descentItem p)
  | .compat doc =>
    match parent with
    | none => []
    | some p => leafItems cfg p doc

/-- Modelled from the spec: request construction of `downloadTreeData` —
the GET targets `parent.url` when a parent item is given and the configured
root url otherwise, with the fixed header list. -/
def treeRequest (cfg : Config) (token : Option String)
    (parent : Option Item) : Request :=
  { url := match parent with
      | some p => p.url
      | none => cfg.rootUrl,
    headers := fetchHeaders token }

/-- Modelled from the spec: request construction of `downloadFlatData` —
the GET targets the configured flat-index endpoint. -/
def flatRequest (cfg : Config) (token : Option String) : Request :=
  { url := cfg.allFilesUrl, headers := fetchHeaders token }

/-- Modelled from the spec: response handling shared by both downloaders —
a transport failure rejects with the original message unchanged, a non-200
status rejects with the reason phrase of that status, and a 200 body is handed
to the transformation. -/
def handleTreeResponse (cfg : Config) (parent : Option Item) :
    FetchResult TreeBody → Except String (List Item)
  | .failure msg => .error msg
  | .success status body =>
    if status = 200 then .ok (transformTreeData cfg parent body)
    else .error (reasonPhrase status)

/-- Modelled from the spec: `DataDownloader.downloadTreeData` of the
missing `src/dataDownloader.ts` — issues one GET at the constructed request
and handles the response. The HTTP client is passed as a function from
requests to fetch outcomes. -/
def downloadTreeData (cfg : Config) (token : Option String)
    (fetchFn : Request → FetchResult TreeBody) (parent : Option Item) :
    Except String (List Item) :=
  handleTreeResponse cfg parent (fetchFn (treeRequest cfg token parent))

/-- Modelled from the spec: the numeric type code translation of the
flat-data mapping — code 2 is `File` (the code observed in the data);
other codes fall to `Directory`. -/
def decodeItemType (n : Nat) : ItemType :=
  if n = 2 then ItemType.File else ItemType.Directory

/-- Modelled from the spec: the flat-data mapping of one `RawItem` to an
`Item` — `name`, `url` and `breadcrumbs` pass through unchanged, the type
code is translated, a null parent becomes an absent parent, and the
transport-only identifier, timestamp and raw rootParent fields are
dropped. -/
def mapRawItem (raw : RawItem) : Item :=
  .mk raw.name raw.url (decodeItemType raw.type) raw.parent none
    raw.breadcrumbs

/-- Modelled from the spec: response handling of `downloadFlatData`, with
the same status and transport-error rules as the tree downloader. -/
def handleFlatResponse : FetchResult FlatBody → Except String (List Item)
  | .failure msg => .error msg
  | .success status body =>
    if status = 200 then .ok (body.items.map mapRawItem)
    else .error (reasonPhrase status)

/-- Modelled from the spec: `DataDownloader.downloadFlatData` of the
missing `src/dataDownloader.ts` — fetches the flat-index endpoint once and
maps each raw item. -/
def downloadFlatData (cfg : Config) (token : Option String)
    (fetchFn : Request → FetchResult FlatBody) :
    Except String (List Item) :=
  handleFlatResponse (fetchFn (flatRequest cfg token))

/-- Sample configuration mirroring the appConfig values used by the test
suite, with the identity url normalizer. -/
def sampleConfig : Config :=
  { regex := "", searchUrl := "",
    rootUrl :=
      "https://api.github.com/repos/mdn/browser-compat-data/contents?ref=master",
    allFilesUrl := "https://nameless.cloud/api/mdn/flat.json",
    urlNormalizer := fun s => s,
    accessProperty := "goToMDN.githubPersonalAccessToken",
    higherLevelLabel := "..",
    cacheKey := "cache" }

/-- Sample parent item for a directory descent, as in the test suite. -/
def apiParent : Item :=
  .mk "api"
    "https://api.github.com/repos/mdn/browser-compat-data/contents/api?ref=master"
    ItemType.Directory none none ["api"]

/-- Sample directory entry, as in the test suite. -/
def abortEntry : DirEntry :=
  { name := "AbortController.json",
    url :=
      "https://api.github.com/repos/mdn/browser-compat-data/contents/api/AbortController.json?ref=master" }

/-- Sample root-level directory entry, as in the test suite. -/
def labelEntry : DirEntry :=
  { name := "label",
    url :=
      "https://api.github.com/repos/mdn/browser-compat-data/contents/label?ref=master" }

/-- Sample parent item for a compat-data leaf fetch, as in the test
suite. -/
def acceptAlertParent : Item :=
  .mk "Accept Alert"
    "https://api.github.com/repos/mdn/browser-compat-data/contents/webdriver/commands/AcceptAlert.json?ref=master"
    ItemType.Directory none none ["webdriver", "commands"]

/-- Sample compat-data document for the AcceptAlert leaf, as in the test
suite. -/
def acceptAlertDoc : CompatDoc :=
  { entryName := "AcceptAlert",
    docLink :=
      "https://developer.mozilla.org/docs/Web/WebDriver/Commands/AcceptAlert" }

/-- Sample raw flat-index item, as in the test suite. -/
def compactRaw : RawItem :=
  { id := 216685, name := "compact",
    url := "https://developer.mozilla.org/docs/Web/API/HTMLUListElement/compact",
    parent := none, rootParent := none, type := 2,
    breadcrumbs := ["api", "HTMLU List Element", "compact"],
    timestamp := "2019-11-19T00:00:00" }

/-- HTTP client stub answering every request with a 200 directory
listing. -/
def treeListingFetch (entries : List DirEntry) :
    Request → FetchResult TreeBody :=
  fun _ => .success 200 (.listing entries)

/-- HTTP client stub answering every request with a 200 compat-data
document. -/
def treeCompatFetch (doc : CompatDoc) : Request → FetchResult TreeBody :=
  fun _ => .success 200 (.compat doc)

/-- HTTP client stub answering every request with the given status and an
empty listing body. -/
def treeStatusFetch (status : Nat) : Request → FetchResult TreeBody :=
  fun _ => .success status (.listing [])

/-- HTTP client stub failing every request with a transport error. -/
def treeFailFetch (msg : String) : Request → FetchResult TreeBody :=
  fun _ => .failure msg

/-- HTTP client stub answering every request with a 200 flat-index body. -/
def flatItemsFetch (raws : List RawItem) : Request → FetchResult FlatBody :=
  fun _ => .success 200 (.mk raws)

/-- HTTP client stub answering every request with the given status and an
empty flat-index body. -/
def flatStatusFetch (status : Nat) : Request → FetchResult FlatBody :=
  fun _ => .success status (.mk [])

/-- HTTP client stub failing every flat request with a transport error. -/
def flatFailFetch (msg : String) : Request → FetchResult FlatBody :=
  fun _ => .failure msg

/-- Claim C1: for every directory-descent call of `downloadTreeData` with
parent `p` whose response is a 200 directory listing, the result is the
entry-wise map of `descentItem p`, and each such child is a `Directory`
item with `parent = p`, `rootParent` equal to the rootParent of `p` when
present and to `p` otherwise, and breadcrumbs equal to the breadcrumbs of
`p` extended by the derived label of the raw entry name; the raw name
`AbortController.json` derives the label `Abort Controller`. -/
theorem downloadTreeData_descent_directories (cfg : Config)
    (token : Option String) (p : Item) (entries : List DirEntry)
    (fetchFn : Request → FetchResult TreeBody) (e : DirEntry)
    (hf : fetchFn (treeRequest cfg token (some p)) =
      FetchResult.success 200 (TreeBody.listing entries)) :
    downloadTreeData cfg token fetchFn (some p) =
      Except.ok (entries.map (descentItem p)) ∧
    (descentItem p e).type = ItemType.Directory ∧
    (descentItem p e).parent = some p ∧
    (descentItem p e).rootParent = some (p.rootParent.getD p) ∧
    (descentItem p e).name = derivedLabel e.name ∧
    (descentItem p e).breadcrumbs = p.breadcrumbs ++ [derivedLabel e.name] ∧
    derivedLabel "AbortController.json" = "Abort Controller" := by
  refine ⟨?_, rfl, rfl, rfl, rfl, rfl, by decide⟩
  simp [downloadTreeData, hf, handleTreeResponse, transformTreeData]

/-- Concrete witness for claim C1: the api parent and the AbortController
entry of the test suite. -/
theorem downloadTreeData_descent_directories_witness :
    treeListingFetch [abortEntry]
        (treeRequest sampleConfig none (some apiParent)) =
      FetchResult.success 200 (TreeBody.listing [abortEntry]) ∧
    (downloadTreeData sampleConfig none (treeListingFetch [abortEntry])
        (some apiParent) =
      Except.ok ([abortEntry].map (descentItem apiParent)) ∧
    (descentItem apiParent abortEntry).type = ItemType.Directory ∧
    (descentItem apiParent abortEntry).parent = some apiParent ∧
    (descentItem apiParent abortEntry).rootParent =
      some (apiParent.rootParent.getD apiParent) ∧
    (descentItem apiParent abortEntry).name = derivedLabel abortEntry.name ∧
    (descentItem apiParent abortEntry).breadcrumbs =
      apiParent.breadcrumbs ++ [derivedLabel abortEntry.name] ∧
    derivedLabel "AbortController.json" = "Abort Controller") :=
  ⟨rfl, downloadTreeData_descent_directories sampleConfig none apiParent
    [abortEntry] (treeListingFetch [abortEntry]) abortEntry rfl⟩

/-- Claim C2: for every call of `downloadTreeData` with parent `p` whose
200 response body is a compat-data document, the result is exactly the two
`File` items with `parent = p`: the reference item, whose url is the
embedded documentation link passed through the configured url normalizer
(non-empty whenever that normalized link is) and whose name is the derived
entry label followed by `" - reference"`, and the wildcard item named
`wildcard` with the empty url. -/
theorem downloadTreeData_leaf_two_items (cfg : Config)
    (token : Option String) (p : Item) (doc : CompatDoc)
    (fetchFn : Request → FetchResult TreeBody)
    (hf : fetchFn (treeRequest cfg token (some p)) =
      FetchResult.success 200 (TreeBody.compat doc))
    (hn : cfg.urlNormalizer doc.docLink ≠ "") :
    downloadTreeData cfg token fetchFn (some p) =
      Except.ok [refItem cfg p doc, wildcardItem p doc] ∧
    (refItem cfg p doc).type = ItemType.File ∧
    (refItem cfg p doc).parent = some p ∧
    (refItem cfg p doc).url = cfg.urlNormalizer doc.docLink ∧
    (refItem cfg p doc).url ≠ "" ∧
    (refItem cfg p doc).name = derivedLabel doc.entryName ++ " - reference" ∧
    (wildcardItem p doc).type = ItemType.File ∧
    (wildcardItem p doc).parent = some p ∧
    (wildcardItem p doc).name = "wildcard" ∧
    (wildcardItem p doc).url = "" := by
  refine ⟨?_, rfl, rfl, rfl, hn, rfl, rfl, rfl, rfl, rfl⟩
  simp [downloadTreeData, hf, handleTreeResponse, transformTreeData,
    leafItems]

/-- Concrete witness for claim C2: the AcceptAlert leaf of the test suite
under the identity normalizer. -/
theorem downloadTreeData_leaf_two_items_witness :
    treeCompatFetch acceptAlertDoc
        (treeRequest sampleConfig none (some acceptAlertParent)) =
      FetchResult.success 200 (TreeBody.compat acceptAlertDoc) ∧
    sampleConfig.urlNormalizer acceptAlertDoc.docLink ≠ "" ∧
    (downloadTreeData sampleConfig none (treeCompatFetch acceptAlertDoc)
        (some acceptAlertParent) =
      Except.ok [refItem sampleConfig acceptAlertParent acceptAlertDoc,
        wildcardItem acceptAlertParent acceptAlertDoc] ∧
    (refItem sampleConfig acceptAlertParent acceptAlertDoc).type =
      ItemType.File ∧
    (refItem sampleConfig acceptAlertParent acceptAlertDoc).parent =
      some acceptAlertParent ∧
    (refItem sampleConfig acceptAlertParent acceptAlertDoc).url =
      sampleConfig.urlNormalizer acceptAlertDoc.docLink ∧
    (refItem sampleConfig acceptAlertParent acceptAlertDoc).url ≠ "" ∧
    (refItem sampleConfig acceptAlertParent acceptAlertDoc).name =
      derivedLabel acceptAlertDoc.entryName ++ " - reference" ∧
    (wildcardItem acceptAlertParent acceptAlertDoc).type = ItemType.File ∧
    (wildcardItem acceptAlertParent acceptAlertDoc).parent =
      some acceptAlertParent ∧
    (wildcardItem acceptAlertParent acceptAlertDoc).name = "wildcard" ∧
    (wildcardItem acceptAlertParent acceptAlertDoc).url = "") :=
  ⟨rfl, by decide,
    downloadTreeData_leaf_two_items sampleConfig none acceptAlertParent
      acceptAlertDoc (treeCompatFetch acceptAlertDoc) rfl (by decide)⟩

/-- Claim C3: for every root fetch of `downloadTreeData` (no parent) whose
response is a 200 directory listing, the result is the entry-wise map of
`rootItem`, and each such item is a `Directory` item whose breadcrumbs are
exactly the one-element list holding its own name, with neither `parent`
nor `rootParent` set. -/
theorem downloadTreeData_root_items (cfg : Config) (token : Option String)
    (entries : List DirEntry) (fetchFn : Request → FetchResult TreeBody)
    (e : DirEntry)
    (hf : fetchFn (treeRequest cfg token none) =
      FetchResult.success 200 (TreeBody.listing entries)) :
    downloadTreeData cfg token fetchFn none =
      Except.ok (entries.map rootItem) ∧
    (rootItem e).type = ItemType.Directory ∧
    (rootItem e).breadcrumbs = [(rootItem e).name] ∧
    (rootItem e).parent = none ∧
    (rootItem e).rootParent = none := by
  refine ⟨?_, rfl, rfl, rfl, rfl⟩
  simp [downloadTreeData, hf, handleTreeResponse, transformTreeData]

/-- Concrete witness for claim C3: the root listing entry `label` of the
test suite. -/
theorem downloadTreeData_root_items_witness :
    treeListingFetch [labelEntry] (treeRequest sampleConfig none none) =
      FetchResult.success 200 (TreeBody.listing [labelEntry]) ∧
    (downloadTreeData sampleConfig none (treeListingFetch [labelEntry])
        none =
      Except.ok ([labelEntry].map rootItem) ∧
    (rootItem labelEntry).type = ItemType.Directory ∧
    (rootItem labelEntry).breadcrumbs = [(rootItem labelEntry).name] ∧
    (rootItem labelEntry).parent = none ∧
    (rootItem labelEntry).rootParent = none) :=
  ⟨rfl, downloadTreeData_root_items sampleConfig none [labelEntry]
    (treeListingFetch [labelEntry]) labelEntry rfl⟩

/-- Counterexample to claim C4 as stated: at the AcceptAlert leaf fetch of
the test suite, `downloadTreeData` does return the reference and wildcard
items, but the wildcard item does NOT carry breadcrumbs ending in the
derived entry label twice — its final breadcrumb is `wildcard`. -/
theorem leaf_breadcrumbs_claim_false :
    downloadTreeData sampleConfig none (treeCompatFetch acceptAlertDoc)
        (some acceptAlertParent) =
      Except.ok [refItem sampleConfig acceptAlertParent acceptAlertDoc,
        wildcardItem acceptAlertParent acceptAlertDoc] ∧
    ¬ ((wildcardItem acceptAlertParent acceptAlertDoc).breadcrumbs =
        acceptAlertParent.breadcrumbs ++
          [derivedLabel acceptAlertDoc.entryName,
            derivedLabel acceptAlertDoc.entryName]) :=
  ⟨rfl, by decide⟩

/-- Claim C4 (amended): for every leaf compat-data fetch with parent `p`,
both returned items carry breadcrumbs equal to the breadcrumbs of `p`
extended by the derived entry label and then by the short label of the item
itself: the entry label again for the reference item (so the entry label
appears twice at the end of its breadcrumbs), and `wildcard` for the
wildcard item. -/
theorem leaf_breadcrumbs_shape (cfg : Config) (token : Option String)
    (p : Item) (doc : CompatDoc)
    (fetchFn : Request → FetchResult TreeBody)
    (hf : fetchFn (treeRequest cfg token (some p)) =
      FetchResult.success 200 (TreeBody.compat doc)) :
    downloadTreeData cfg token fetchFn (some p) =
      Except.ok [refItem cfg p doc, wildcardItem p doc] ∧
    (refItem cfg p doc).breadcrumbs =
      p.breadcrumbs ++
        [derivedLabel doc.entryName, derivedLabel doc.entryName] ∧
    (wildcardItem p doc).breadcrumbs =
      p.breadcrumbs ++ [derivedLabel doc.entryName, "wildcard"] ∧
    (wildcardItem p doc).name = "wildcard" := by
  refine ⟨?_, rfl, rfl, rfl⟩
  simp [downloadTreeData, hf, handleTreeResponse, transformTreeData,
    leafItems]

/-- Concrete witness for amended claim C4 at the AcceptAlert leaf of the
test suite. -/
theorem leaf_breadcrumbs_shape_witness :
    treeCompatFetch acceptAlertDoc
        (treeRequest sampleConfig none (some acceptAlertParent)) =
      FetchResult.success 200 (TreeBody.compat acceptAlertDoc) ∧
    (downloadTreeData sampleConfig none (treeCompatFetch acceptAlertDoc)
        (some acceptAlertParent) =
      Except.ok [refItem sampleConfig acceptAlertParent acceptAlertDoc,
        wildcardItem acceptAlertParent acceptAlertDoc] ∧
    (refItem sampleConfig acceptAlertParent acceptAlertDoc).breadcrumbs =
      acceptAlertParent.breadcrumbs ++
        [derivedLabel acceptAlertDoc.entryName,
          derivedLabel acceptAlertDoc.entryName] ∧
    (wildcardItem acceptAlertParent acceptAlertDoc).breadcrumbs =
      acceptAlertParent.breadcrumbs ++
        [derivedLabel acceptAlertDoc.entryName, "wildcard"] ∧
    (wildcardItem acceptAlertParent acceptAlertDoc).name = "wildcard") :=
  ⟨rfl, leaf_breadcrumbs_shape sampleConfig none acceptAlertParent
    acceptAlertDoc (treeCompatFetch acceptAlertDoc) rfl⟩

/-- Claim C5: for every HTTP response with a status other than 200, both
`downloadTreeData` and `downloadFlatData` reject with the reason phrase of
that status as the error message and return no items; the reason phrase of
status 204 is exactly `No Content`. -/
theorem non200_rejects_with_reason_phrase (cfg : Config)
    (token : Option String) (parent : Option Item) (s : Nat)
    (bodyT : TreeBody) (bodyF : FlatBody)
    (fT : Request → FetchResult TreeBody)
    (fF : Request → FetchResult FlatBody)
    (hs : s ≠ 200)
    (hfT : fT (treeRequest cfg token parent) = FetchResult.success s bodyT)
    (hfF : fF (flatRequest cfg token) = FetchResult.success s bodyF) :
    downloadTreeData cfg token fT parent =
      Except.error (reasonPhrase s) ∧
    downloadFlatData cfg token fF = Except.error (reasonPhrase s) ∧
    reasonPhrase 204 = "No Content" := by
  refine ⟨?_, ?_, rfl⟩
  · simp [downloadTreeData, hfT, handleTreeResponse, hs]
  · simp [downloadFlatData, hfF, handleFlatResponse, hs]

/-- Concrete witness for claim C5 at status 204, as in the test suite. -/
theorem non200_rejects_with_reason_phrase_witness :
    (204 : Nat) ≠ 200 ∧
    treeStatusFetch 204 (treeRequest sampleConfig none none) =
      FetchResult.success 204 (TreeBody.listing []) ∧
    flatStatusFetch 204 (flatRequest sampleConfig none) =
      FetchResult.success 204 (FlatBody.mk []) ∧
    (downloadTreeData sampleConfig none (treeStatusFetch 204) none =
      Except.error (reasonPhrase 204) ∧
    downloadFlatData sampleConfig none (flatStatusFetch 204) =
      Except.error (reasonPhrase 204) ∧
    reasonPhrase 204 = "No Content") :=
  ⟨by decide, rfl, rfl,
    non200_rejects_with_reason_phrase sampleConfig none none 204
      (TreeBody.listing []) (FlatBody.mk []) (treeStatusFetch 204)
      (flatStatusFetch 204) (by decide) rfl rfl⟩

/-- Claim C6: for every transport-level failure of the underlying GET with
message `m`, both `downloadTreeData` and `downloadFlatData` reject with
exactly the message `m`, unmodified. -/
theorem transport_error_message_unchanged (cfg : Config)
    (token : Option String) (parent : Option Item) (m : String)
    (fT : Request → FetchResult TreeBody)
    (fF : Request → FetchResult FlatBody)
    (hfT : fT (treeRequest cfg token parent) = FetchResult.failure m)
    (hfF : fF (flatRequest cfg token) = FetchResult.failure m) :
    downloadTreeData cfg token fT parent = Except.error m ∧
    downloadFlatData cfg token fF = Except.error m := by
  constructor
  · simp [downloadTreeData, hfT, handleTreeResponse]
  · simp [downloadFlatData, hfF, handleFlatResponse]

/-- Concrete witness for claim C6 with the message of the test suite. -/
theorem transport_error_message_unchanged_witness :
    treeFailFetch "test error message"
        (treeRequest sampleConfig none none) =
      FetchResult.failure "test error message" ∧
    flatFailFetch "test error message" (flatRequest sampleConfig none) =
      FetchResult.failure "test error message" ∧
    (downloadTreeData sampleConfig none (treeFailFetch "test error message")
        none = Except.error "test error message" ∧
    downloadFlatData sampleConfig none
        (flatFailFetch "test error message") =
      Except.error "test error message") :=
  ⟨rfl, rfl,
    transport_error_message_unchanged sampleConfig none none
      "test error message" (treeFailFetch "test error message")
      (flatFailFetch "test error message") rfl rfl⟩

/-- Claim C7: every `downloadTreeData` call issues its single GET at the
constructed request, whose url is `parent.url` when a parent item is given
and the configured root url otherwise, and whose headers are exactly
`Content-type: application/json` and `Authorization`, the latter being the
empty string without a personal token and `token ` followed by the token
value with one — the header is never omitted. -/
theorem tree_request_url_and_headers (cfg : Config)
    (token : Option String) (p : Item) (parent : Option Item) (t : String)
    (fetchFn : Request → FetchResult TreeBody) :
    (treeRequest cfg token (some p)).url = p.url ∧
    (treeRequest cfg token none).url = cfg.rootUrl ∧
    (treeRequest cfg token parent).headers =
      [("Content-type", "application/json"),
        ("Authorization", authHeaderValue token)] ∧
    authHeaderValue none = "" ∧
    authHeaderValue (some t) = "token " ++ t ∧
    downloadTreeData cfg token fetchFn parent =
      handleTreeResponse cfg parent (fetchFn (treeRequest cfg token parent)) :=
  ⟨rfl, rfl, rfl, rfl, rfl, rfl⟩

/-- Claim C8: every 200 flat-data response body `{ items }` is mapped
entry-wise by `mapRawItem`, which translates type code 2 to `File`, turns a
null raw parent into an absent parent, drops the transport-only identifier
and timestamp fields (the result is invariant under changing them), and
carries `name`, `url` and `breadcrumbs` over unchanged. -/
theorem downloadFlatData_mapping (cfg : Config) (token : Option String)
    (raws : List RawItem) (fetchFn : Request → FetchResult FlatBody)
    (raw : RawItem) (x : Nat) (ts : String)
    (hf : fetchFn (flatRequest cfg token) =
      FetchResult.success 200 (FlatBody.mk raws)) :
    downloadFlatData cfg token fetchFn =
      Except.ok (raws.map mapRawItem) ∧
    decodeItemType 2 = ItemType.File ∧
    (mapRawItem raw).type = decodeItemType raw.type ∧
    (mapRawItem { raw with parent := none }).parent = none ∧
    mapRawItem { raw with id := x, timestamp := ts } = mapRawItem raw ∧
    (mapRawItem raw).name = raw.name ∧
    (mapRawItem raw).url = raw.url ∧
    (mapRawItem raw).breadcrumbs = raw.breadcrumbs := by
  refine ⟨?_, rfl, rfl, rfl, rfl, rfl, rfl, rfl⟩
  simp [downloadFlatData, hf, handleFlatResponse]

/-- Concrete witness for claim C8: the single raw item of the test suite
(type code 2, null parent, identifier 216685 and a timestamp that are both
dropped). -/
theorem downloadFlatData_mapping_witness :
    flatItemsFetch [compactRaw] (flatRequest sampleConfig none) =
      FetchResult.success 200 (FlatBody.mk [compactRaw]) ∧
    (downloadFlatData sampleConfig none (flatItemsFetch [compactRaw]) =
      Except.ok ([compactRaw].map mapRawItem) ∧
    decodeItemType 2 = ItemType.File ∧
    (mapRawItem compactRaw).type = decodeItemType compactRaw.type ∧
    (mapRawItem { compactRaw with parent := none }).parent = none ∧
    mapRawItem { compactRaw with id := 0, timestamp := "" } =
      mapRawItem compactRaw ∧
    (mapRawItem compactRaw).name = compactRaw.name ∧
    (mapRawItem compactRaw).url = compactRaw.url ∧
    (mapRawItem compactRaw).breadcrumbs = compactRaw.breadcrumbs) :=
  ⟨rfl, downloadFlatData_mapping sampleConfig none [compactRaw]
    (flatItemsFetch [compactRaw]) compactRaw 0 "" rfl⟩

/-- Claim C9: `rootParent` is set only on items produced by a
directory-descent fetch; root-fetch items, both leaf compat-data items and
flat-data items carry no `rootParent` — even a raw flat-data `rootParent`
field is dropped by the mapping — while every descent item does carry
one. -/
theorem rootParent_only_on_descent (cfg : Config) (e : DirEntry)
    (p : Item) (doc : CompatDoc) (raw : RawItem) (q : Item) (pd : Item)
    (ed : DirEntry) :
    (rootItem e).rootParent = none ∧
    (refItem cfg p doc).rootParent = none ∧
    (wildcardItem p doc).rootParent = none ∧
    (mapRawItem raw).rootParent = none ∧
    (mapRawItem { raw with rootParent := some q }).rootParent = none ∧
    (descentItem pd ed).rootParent = some (pd.rootParent.getD pd) :=
  ⟨rfl, rfl, rfl, rfl, rfl, rfl⟩

/-- Claim C10: all four transformations are per-entry maps over the decoded
body — root fetch and directory descent are `List.map` of a per-entry
function, the flat mapping is `List.map mapRawItem`, a compat-data leaf
yields exactly two items, output lengths are determined entry-wise, and the
item at every output position depends only on the entry at the same input
position (so order is preserved). -/
theorem transformations_are_per_entry_maps (cfg : Config) (p : Item)
    (es : List DirEntry) (raws : List RawItem) (doc : CompatDoc)
    (i : Nat) :
    transformTreeData cfg none (TreeBody.listing es) = es.map rootItem ∧
    transformTreeData cfg (some p) (TreeBody.listing es) =
      es.map (descentItem p) ∧
    handleFlatResponse (FetchResult.success 200 (FlatBody.mk raws)) =
      Except.ok (raws.map mapRawItem) ∧
    (transformTreeData cfg none (TreeBody.listing es)).length =
      es.length ∧
    (transformTreeData cfg (some p) (TreeBody.listing es)).length =
      es.length ∧
    (transformTreeData cfg (some p) (TreeBody.compat doc)).length = 2 ∧
    (transformTreeData cfg none (TreeBody.listing es))[i]? =
      (es[i]?).map rootItem ∧
    (transformTreeData cfg (some p) (TreeBody.listing es))[i]? =
      (es[i]?).map (descentItem p) ∧
    (raws.map mapRawItem)[i]? = (raws[i]?).map mapRawItem := by
  refine ⟨rfl, rfl, rfl, ?_, ?_, rfl, ?_, ?_, ?_⟩ <;>
    simp [transformTreeData]
